import Mathlib

/-!
Verification of the configuration-normalization layer of dca-bot-go
(internal/config/payload.go): the nested v2 parser `ParseDCAPayload`,
the unifier `ToUnified` with `populateUnifiedCredentials`, and the
legacy adapter `ParseUnifiedV2`.

The embedding starts from the decoded payload structures (the JSON
deserialization step of the Go code is outside the model; every claim
below concerns the validation and normalization logic that runs after
deserialization). Machine strings are Lean strings with ASCII/Latin-1
models of the Go `strings` helpers used by the source. Decimal parsing
models `shopspring/decimal.NewFromString`.
-/

namespace DCABot

/-! ### Model of shopspring/decimal -/

/-- Model of a shopspring decimal: an arbitrary-precision integer
coefficient and a base-ten exponent; the represented value is
`value * 10 ^ exp`. -/
structure GoDecimal where
  value : Int
  exp : Int
deriving DecidableEq, Repr

/-- The digits of a non-empty all-digit character list, as a natural
number; `none` when empty or a non-digit appears. Models the digit
consumption shared by `strconv.ParseInt` and `big.Int.SetString`. -/
def digitsToNat (cs : List Char) : Option Nat :=
  match cs with
  | [] => none
  | _ =>
    if cs.all (fun c => c.isDigit) then
      some (cs.foldl (fun n c => n * 10 + (c.toNat - 48)) 0)
    else
      none

/-- Model of parsing a base-ten integer string with an optional leading
sign, as done by `strconv.ParseInt` / `big.Int.SetString` in base 10. -/
def parseGoInt (s : String) : Option Int :=
  match s.data with
  | '+' :: rest => (digitsToNat rest).map Int.ofNat
  | '-' :: rest => (digitsToNat rest).map (fun n => -(n : Int))
  | cs => (digitsToNat cs).map Int.ofNat

/-- Model of `strconv.ParseInt(s, 10, 32)`: a signed base-ten integer
that must fit in 32 bits. Used for the exponent part. -/
def parseGoInt32 (s : String) : Option Int :=
  (parseGoInt s).bind fun v =>
    if -(2 ^ 31) ≤ v ∧ v ≤ 2 ^ 31 - 1 then some v else none

/-- True for the characters `e` and `E`, the scientific-notation
markers recognized by `decimal.NewFromString`. -/
def isExpChar (c : Char) : Bool := c = 'e' || c = 'E'

/-- Model of `decimal.NewFromString`: optional scientific-notation
suffix introduced by the first `e`/`E`, at most one decimal point with
at least one digit after it, and a signed digit string for the
remaining coefficient. Returns `none` exactly when the Go function
returns a non-nil error. -/
def NewFromString (s : String) : Option GoDecimal :=
  let cs := s.data
  let mantissa := match cs.findIdx? isExpChar with
    | some i => cs.take i
    | none => cs
  let expPart : Option Int := match cs.findIdx? isExpChar with
    | some i => parseGoInt32 (String.mk (cs.drop (i + 1)))
    | none => some 0
  match expPart with
  | none => none
  | some e =>
    match mantissa.findIdx? (fun c => c = '.') with
    | none =>
      (parseGoInt (String.mk mantissa)).map (fun v => ⟨v, e⟩)
    | some p =>
      let frac := mantissa.drop (p + 1)
      if frac.any (fun c => c = '.') then none
      else if frac.length = 0 then none
      else
        (parseGoInt (String.mk (mantissa.take p ++ frac))).map
          (fun v => ⟨v, e - frac.length⟩)

/-- Model of `Decimal.IsPositive`: the sign of the coefficient is
strictly positive. -/
def GoDecimal.IsPositive (d : GoDecimal) : Bool := 0 < d.value

/-- Model of `decimal.Zero`, which the library defines as `New(0, 1)`. -/
def GoDecimal.Zero : GoDecimal := ⟨0, 1⟩

/-! ### Models of the Go strings helpers (ASCII/Latin-1 scope) -/

/-- Model of `strings.ToLower` restricted to ASCII letters. -/
def goToLower (s : String) : String := String.mk (s.data.map Char.toLower)

/-- Model of `strings.ToUpper` restricted to ASCII letters. -/
def goToUpper (s : String) : String := String.mk (s.data.map Char.toUpper)

/-- Model of `unicode.IsSpace` over the Latin-1 range. -/
def goIsSpace (c : Char) : Bool :=
  c = ' ' || c = '\t' || c = '\n' || c = '\x0b' || c = '\x0c' ||
  c = '\r' || c = '\x85' || c = '\xa0'

/-- Model of `strings.TrimSpace`: drop leading and trailing whitespace. -/
def goTrimSpace (s : String) : String :=
  String.mk (((s.data.dropWhile goIsSpace).reverse.dropWhile goIsSpace).reverse)

/-! ### The generic configuration bag (`map[string]interface{}`) -/

/-- A value stored in a generic configuration bag. The source only ever
performs string type assertions on bag values, so every non-string JSON
value is represented uniformly by `notStr`. -/
inductive BagVal where
  | str (s : String)
  | notStr
deriving DecidableEq, Repr

/-- A generic configuration bag: the decoded `map[string]interface{}`.
JSON decoding yields at most one entry per key; lookup returns the
first match. -/
abbrev Bag := List (String × BagVal)

/-- Model of the Go pattern `v, ok := bag[key].(string)`: `some v` when
the key is present with a string value, `none` otherwise. -/
def bagGetString (bag : Bag) (key : String) : Option String :=
  match bag.lookup key with
  | some (BagVal.str s) => some s
  | _ => none

/-! ### The nested v2 payload (`DCAPayload`) -/

/-- Source struct `CredentialSource`: a kind tag and a generic bag. -/
structure CredentialSource where
  type : String
  config : Bag
deriving DecidableEq, Repr

/-- Source struct `ExchangeConfig`. -/
structure ExchangeConfig where
  name : String
  credentials : CredentialSource
  region : String
deriving DecidableEq, Repr

/-- Source struct `DCAStrategy`. -/
structure DCAStrategy where
  symbol : String
  quoteAmount : String
  balanceThreshold : String
  orderType : String
deriving DecidableEq, Repr

/-- Source struct `TelegramConfig`: a kind tag and a generic bag. -/
structure TelegramConfig where
  type : String
  config : Bag
deriving DecidableEq, Repr

/-- Source struct `NotificationConfig`. -/
structure NotificationConfig where
  telegram : Option TelegramConfig
deriving DecidableEq, Repr

/-- Source struct `RuntimeFlags`. -/
structure RuntimeFlags where
  dryRun : Bool
deriving DecidableEq, Repr

/-- Source struct `DCAPayload`: the nested v2 trading instruction. -/
structure DCAPayload where
  version : String
  exchange : ExchangeConfig
  strategy : DCAStrategy
  notifications : NotificationConfig
  flags : RuntimeFlags
deriving DecidableEq, Repr

/-! ### The legacy payload (`PayloadV2`) -/

/-- Legacy `dca` block of `PayloadV2`. -/
structure LegacyDCA where
  symbol : String
  targetAsset : String
  orderCurrency : String
  quoteAmount : String
  balanceThreshold : String
deriving DecidableEq, Repr

/-- Legacy OKX inline credential sub-record. -/
structure OKXInlineCred where
  apiKey : String
  apiSecret : String
  passphrase : String
deriving DecidableEq, Repr

/-- Legacy OKX env credential sub-record. -/
structure OKXEnvCred where
  apiKeyEnv : String
  apiSecretEnv : String
  passphraseEnv : String
deriving DecidableEq, Repr

/-- Legacy OKX credential block. -/
structure OKXCred where
  apiKeyPath : String
  apiSecretPath : String
  passphrasePath : String
  inline : Option OKXInlineCred
  env : Option OKXEnvCred
deriving DecidableEq, Repr

/-- Legacy Binance inline credential sub-record. -/
structure BinanceInlineCred where
  apiKey : String
  apiSecret : String
deriving DecidableEq, Repr

/-- Legacy Binance env credential sub-record. -/
structure BinanceEnvCred where
  apiKeyEnv : String
  apiSecretEnv : String
deriving DecidableEq, Repr

/-- Legacy Binance credential block. -/
structure BinanceCred where
  apiKeyPath : String
  apiSecretPath : String
  inline : Option BinanceInlineCred
  env : Option BinanceEnvCred
deriving DecidableEq, Repr

/-- Legacy `credentials` block of `PayloadV2`. -/
structure LegacyCredentials where
  okx : Option OKXCred
  binance : Option BinanceCred
deriving DecidableEq, Repr

/-- Legacy Telegram inline sub-record. -/
structure LegacyTelegramInline where
  botToken : String
deriving DecidableEq, Repr

/-- Legacy Telegram env sub-record. -/
structure LegacyTelegramEnv where
  botTokenEnv : String
deriving DecidableEq, Repr

/-- Legacy Telegram notification block. -/
structure LegacyTelegram where
  botTokenPath : String
  chatID : String
  sink : String
  inline : Option LegacyTelegramInline
  env : Option LegacyTelegramEnv
deriving DecidableEq, Repr

/-- Legacy `notifications` block of `PayloadV2`. -/
structure LegacyNotifications where
  telegram : Option LegacyTelegram
deriving DecidableEq, Repr

/-- Source struct `PayloadV2`: the legacy flat-format payload. -/
structure PayloadV2 where
  version : String
  exchange : String
  dca : LegacyDCA
  credentials : LegacyCredentials
  notifications : LegacyNotifications
  dryRun : Bool
deriving DecidableEq, Repr

/-! ### The normalized plan (`Unified`) -/

/-- SSM-shaped OKX credential record of `Unified`. -/
structure OKXPaths where
  apiKeyPath : String
  apiSecretPath : String
  passphrasePath : String
deriving DecidableEq, Repr

/-- Inline OKX credential record of `Unified`. -/
structure OKXInlineRec where
  apiKey : String
  apiSecret : String
  passphrase : String
deriving DecidableEq, Repr

/-- SSM-shaped Binance credential record of `Unified`. -/
structure BinancePaths where
  apiKeyPath : String
  apiSecretPath : String
deriving DecidableEq, Repr

/-- Telegram record of `Unified`. -/
structure TelegramRec where
  botTokenPath : String
  chatID : String
  sink : String
deriving DecidableEq, Repr

/-- Source struct `Unified`: the normalized execution plan. Optional
fields model the nilable pointer fields of the Go struct. -/
structure Unified where
  exchange : String
  symbol : String
  quoteAmount : GoDecimal
  balanceThreshold : GoDecimal
  dryRun : Bool
  okx : Option OKXPaths
  okxInline : Option OKXInlineRec
  binance : Option BinancePaths
  telegram : Option TelegramRec
deriving DecidableEq, Repr

/-! ### Error models -/

/-- Errors of `ParseDCAPayload`, one constructor per `fmt.Errorf` call
site; the decimal errors carry the offending string, which the wrapped
Go error message embeds. -/
inductive ParseError where
  | versionMustBeV2
  | exchangeNameRequired
  | strategySymbolRequired
  | quoteAmountRequired
  | invalidQuoteAmount (s : String)
  | invalidBalanceThreshold (s : String)
deriving DecidableEq, Repr

/-- Errors of `ToUnified`, one constructor per `fmt.Errorf` call site. -/
inductive ConvError where
  | invalidQuoteAmount (s : String)
  | invalidBalanceThreshold (s : String)
deriving DecidableEq, Repr

/-- Errors of `ParseUnifiedV2`, one constructor per `fmt.Errorf` call
site; the amount errors carry the literal string that the Go message
quotes with the format verb for quoting. -/
inductive LegacyError where
  | versionMustBeV2
  | exchangeRequired
  | symbolRequired
  | quoteAmountInvalid (s : String)
  | balanceThresholdInvalid (s : String)
deriving DecidableEq, Repr

/-! ### The parser, unifier and legacy adapter -/

/-- Model of `ParseDCAPayload` after JSON decoding: version check,
required-field checks, decimal validation of the two amount strings,
and defaulting of the order type. -/
def ParseDCAPayload (payload : DCAPayload) : Except ParseError DCAPayload :=
  if goToLower payload.version ≠ "v2" then
    .error ParseError.versionMustBeV2
  else if payload.exchange.name = "" then
    .error ParseError.exchangeNameRequired
  else if payload.strategy.symbol = "" then
    .error ParseError.strategySymbolRequired
  else if payload.strategy.quoteAmount = "" then
    .error ParseError.quoteAmountRequired
  else if (NewFromString payload.strategy.quoteAmount).isNone then
    .error (ParseError.invalidQuoteAmount payload.strategy.quoteAmount)
  else if payload.strategy.balanceThreshold ≠ "" ∧
      (NewFromString payload.strategy.balanceThreshold).isNone then
    .error (ParseError.invalidBalanceThreshold payload.strategy.balanceThreshold)
  else
    .ok { payload with
          strategy := { payload.strategy with
            orderType := if payload.strategy.orderType = "" then "market"
                         else payload.strategy.orderType } }

/-- Model of `populateUnifiedCredentials`: dispatch on the lower-cased
exchange name; for binance and okx allocate the SSM-shaped record and
fill its path fields from the bag only when the credential kind is ssm;
for okx additionally populate the inline record when the kind is
inline. The Go function only ever returns a nil error. -/
def populateUnifiedCredentials (p : DCAPayload) (unified : Unified) :
    Except ConvError Unified :=
  if goToLower p.exchange.name = "binance" then
    let b : BinancePaths :=
      if p.exchange.credentials.type = "ssm" then
        { apiKeyPath :=
            (bagGetString p.exchange.credentials.config "apiKeyPath").getD ""
          apiSecretPath :=
            (bagGetString p.exchange.credentials.config "apiSecretPath").getD "" }
      else
        { apiKeyPath := "", apiSecretPath := "" }
    .ok { unified with binance := some b }
  else if goToLower p.exchange.name = "okx" then
    let o : OKXPaths :=
      if p.exchange.credentials.type = "ssm" then
        { apiKeyPath :=
            (bagGetString p.exchange.credentials.config "apiKeyPath").getD ""
          apiSecretPath :=
            (bagGetString p.exchange.credentials.config "apiSecretPath").getD ""
          passphrasePath :=
            (bagGetString p.exchange.credentials.config "passphrasePath").getD "" }
      else
        { apiKeyPath := "", apiSecretPath := "", passphrasePath := "" }
    let oi : Option OKXInlineRec :=
      if p.exchange.credentials.type = "inline" then
        some
          { apiKey :=
              (bagGetString p.exchange.credentials.config "apiKey").getD ""
            apiSecret :=
              (bagGetString p.exchange.credentials.config "apiSecret").getD ""
            passphrase :=
              (bagGetString p.exchange.credentials.config "passphrase").getD "" }
      else
        unified.okxInline
    .ok { unified with okx := some o, okxInline := oi }
  else
    .ok unified

/-- Balance-threshold step of `ToUnified`: decimal zero when the
string is empty, otherwise a decimal parse that can fail. -/
def parseBalanceThreshold (p : DCAPayload) : Except ConvError GoDecimal :=
  if p.strategy.balanceThreshold = "" then .ok GoDecimal.Zero
  else
    match NewFromString p.strategy.balanceThreshold with
    | none =>
      .error (ConvError.invalidBalanceThreshold p.strategy.balanceThreshold)
    | some bt => .ok bt

/-- The `Unified` value assembled by `ToUnified` before credential and
telegram population: lower-cased exchange, upper-cased symbol, parsed
amounts, dry-run flag, all optional records nil. -/
def unifiedBase (p : DCAPayload) (qa bt : GoDecimal) : Unified :=
  { exchange := goToLower p.exchange.name
    symbol := goToUpper p.strategy.symbol
    quoteAmount := qa
    balanceThreshold := bt
    dryRun := p.flags.dryRun
    okx := none, okxInline := none, binance := none, telegram := none }

/-- Telegram step of `ToUnified`: when the notification block is
present, allocate the record, copy a string-typed chatId from the bag
unconditionally, copy botTokenPath only for the ssm kind, and leave
the sink empty. -/
def applyTelegram (p : DCAPayload) (u : Unified) : Unified :=
  match p.notifications.telegram with
  | none => u
  | some tg =>
    let chatID := (bagGetString tg.config "chatId").getD ""
    let botTokenPath :=
      if tg.type = "ssm" then
        (bagGetString tg.config "botTokenPath").getD ""
      else ""
    let tgRec : TelegramRec :=
      { botTokenPath := botTokenPath, chatID := chatID, sink := "" }
    { u with telegram := some tgRec }

/-- Model of `ToUnified`: re-parse the two amount strings as decimals
(the threshold defaults to decimal zero when empty), lower-case the
exchange, upper-case the symbol, populate credentials, then populate
the Telegram record when the notification block is present. -/
def ToUnified (p : DCAPayload) : Except ConvError Unified :=
  match NewFromString p.strategy.quoteAmount with
  | none => .error (ConvError.invalidQuoteAmount p.strategy.quoteAmount)
  | some qa =>
    match parseBalanceThreshold p with
    | .error e => .error e
    | .ok bt =>
      match populateUnifiedCredentials p (unifiedBase p qa bt) with
      | .error e => .error e
      | .ok u => .ok (applyTelegram p u)

/-- Symbol-resolution step of `ParseUnifiedV2`: the trimmed
upper-cased `dca.symbol` when non-empty, otherwise the composition of
the upper-cased target asset and order currency, both required. -/
def legacySymbol (dca : LegacyDCA) : Except LegacyError String :=
  if goToUpper (goTrimSpace dca.symbol) = "" then
    if dca.targetAsset = "" ∨ dca.orderCurrency = "" then
      .error LegacyError.symbolRequired
    else
      .ok (goToUpper dca.targetAsset ++ "-" ++ goToUpper dca.orderCurrency)
  else
    .ok (goToUpper (goTrimSpace dca.symbol))

/-- Balance-threshold step of `ParseUnifiedV2`: decimal zero when the
trimmed string is empty, otherwise a decimal parse of the trimmed
string that can fail, quoting the trimmed string. -/
def legacyBalanceThreshold (dca : LegacyDCA) : Except LegacyError GoDecimal :=
  if goTrimSpace dca.balanceThreshold = "" then .ok GoDecimal.Zero
  else
    match NewFromString (goTrimSpace dca.balanceThreshold) with
    | none =>
      .error (LegacyError.balanceThresholdInvalid
        (goTrimSpace dca.balanceThreshold))
    | some bt => .ok bt

/-- Assembly step of `ParseUnifiedV2`: credential and notification
records are copied directly from the nested structs when present; only
the path-shaped fields, the okx inline sub-record and the telegram
top-level fields are carried over. -/
def legacyAssemble (v2 : PayloadV2) (ex symbol : String) (qa bt : GoDecimal) :
    Unified :=
  { exchange := ex
    symbol := symbol
    quoteAmount := qa
    balanceThreshold := bt
    dryRun := v2.dryRun
    okx := v2.credentials.okx.map (fun o =>
      { apiKeyPath := o.apiKeyPath
        apiSecretPath := o.apiSecretPath
        passphrasePath := o.passphrasePath })
    okxInline := v2.credentials.okx.bind (fun o =>
      o.inline.map (fun i =>
        { apiKey := i.apiKey
          apiSecret := i.apiSecret
          passphrase := i.passphrase }))
    binance := v2.credentials.binance.map (fun b =>
      { apiKeyPath := b.apiKeyPath
        apiSecretPath := b.apiSecretPath })
    telegram := v2.notifications.telegram.map (fun t =>
      { botTokenPath := t.botTokenPath
        chatID := t.chatID
        sink := goToLower (goTrimSpace t.sink) }) }

/-- Model of `ParseUnifiedV2` after JSON decoding: version check,
trimmed lower-cased exchange, symbol resolution from the trimmed
symbol or from the asset pair, strictly-positive quote amount,
optional balance threshold, then direct copying of the nested
credential and notification records. -/
def ParseUnifiedV2 (v2 : PayloadV2) : Except LegacyError Unified :=
  if goToLower v2.version ≠ "v2" then
    .error LegacyError.versionMustBeV2
  else if goToLower (goTrimSpace v2.exchange) = "" then
    .error LegacyError.exchangeRequired
  else
    match legacySymbol v2.dca with
    | .error e => .error e
    | .ok symbol =>
      match NewFromString v2.dca.quoteAmount with
      | none => .error (LegacyError.quoteAmountInvalid v2.dca.quoteAmount)
      | some qa =>
        if ¬ qa.IsPositive then
          .error (LegacyError.quoteAmountInvalid v2.dca.quoteAmount)
        else
          match legacyBalanceThreshold v2.dca with
          | .error e => .error e
          | .ok bt =>
            .ok (legacyAssemble v2 (goToLower (goTrimSpace v2.exchange))
                   symbol qa bt)

/-! ### Statement helpers -/

/-- True when the string parses as a shopspring decimal whose value is
strictly positive: the acceptance condition of the legacy quote-amount
check. -/
def quotePositive (s : String) : Bool :=
  match NewFromString s with
  | some d => d.IsPositive
  | none => false

/-- The payload transformation that erases the legacy credential and
notification sub-records which claim C9 asserts are never read: the
binance inline and env sub-records, the okx env sub-record, and the
telegram inline and env sub-records. -/
def scrubLegacy (v2 : PayloadV2) : PayloadV2 :=
  { v2 with
    credentials :=
      { okx := v2.credentials.okx.map (fun o => { o with env := none })
        binance := v2.credentials.binance.map
          (fun b => { b with inline := none, env := none }) }
    notifications :=
      { telegram := v2.notifications.telegram.map
          (fun t => { t with inline := none, env := none }) } }

/-! ### Helper lemmas -/

lemma goTrimSpace_eq_empty {s : String} (h : s.data.all goIsSpace) :
    goTrimSpace s = "" := by
  have h1 : s.data.dropWhile goIsSpace = [] := by
    rw [List.dropWhile_eq_nil_iff]
    intro x hx
    exact List.all_eq_true.mp h x hx
  simp [goTrimSpace, h1]

lemma populate_ok (p : DCAPayload) (u0 : Unified) :
    ∃ u, populateUnifiedCredentials p u0 = .ok u := by
  unfold populateUnifiedCredentials
  split_ifs <;> exact ⟨_, rfl⟩

lemma applyTelegram_exchange (p : DCAPayload) (u : Unified) :
    (applyTelegram p u).exchange = u.exchange := by
  unfold applyTelegram; split <;> rfl

lemma applyTelegram_symbol (p : DCAPayload) (u : Unified) :
    (applyTelegram p u).symbol = u.symbol := by
  unfold applyTelegram; split <;> rfl

lemma applyTelegram_okx (p : DCAPayload) (u : Unified) :
    (applyTelegram p u).okx = u.okx := by
  unfold applyTelegram; split <;> rfl

lemma applyTelegram_okxInline (p : DCAPayload) (u : Unified) :
    (applyTelegram p u).okxInline = u.okxInline := by
  unfold applyTelegram; split <;> rfl

lemma applyTelegram_binance (p : DCAPayload) (u : Unified) :
    (applyTelegram p u).binance = u.binance := by
  unfold applyTelegram; split <;> rfl

lemma ToUnified_ok_inv {p : DCAPayload} {u : Unified}
    (h : ToUnified p = .ok u) :
    ∃ qa bt u1, NewFromString p.strategy.quoteAmount = some qa ∧
      parseBalanceThreshold p = .ok bt ∧
      populateUnifiedCredentials p (unifiedBase p qa bt) = .ok u1 ∧
      u = applyTelegram p u1 := by
  unfold ToUnified at h
  split at h
  · exact absurd h (by simp)
  next qa hqa =>
    split at h
    · exact absurd h (by simp)
    next bt hbt =>
      split at h
      · exact absurd h (by simp)
      next u1 hpop =>
        exact ⟨qa, bt, u1, hqa, hbt, hpop, (Except.ok.injEq _ _).mp h |>.symm⟩

lemma ToUnified_eq_ok {p : DCAPayload} {qa bt : GoDecimal} {u1 : Unified}
    (hqa : NewFromString p.strategy.quoteAmount = some qa)
    (hbt : parseBalanceThreshold p = .ok bt)
    (hpop : populateUnifiedCredentials p (unifiedBase p qa bt) = .ok u1) :
    ToUnified p = .ok (applyTelegram p u1) := by
  unfold ToUnified
  simp only [hqa, hbt, hpop]

lemma parseBalanceThreshold_isOk_iff (p : DCAPayload) :
    (∃ bt, parseBalanceThreshold p = .ok bt) ↔
      (p.strategy.balanceThreshold = "" ∨
       (NewFromString p.strategy.balanceThreshold).isSome) := by
  unfold parseBalanceThreshold
  split_ifs with h
  · simp [h]
  · cases hbt : NewFromString p.strategy.balanceThreshold <;> simp [h, hbt]

lemma populate_base_spec (p : DCAPayload) (qa bt : GoDecimal)
    (u : Unified)
    (hu : populateUnifiedCredentials p (unifiedBase p qa bt) = .ok u) :
    u.exchange = goToLower p.exchange.name ∧
    u.symbol = goToUpper p.strategy.symbol ∧
    (u.binance.isSome ↔ goToLower p.exchange.name = "binance") ∧
    (u.okx.isSome ↔ goToLower p.exchange.name = "okx") := by
  unfold populateUnifiedCredentials at hu
  by_cases hb : goToLower p.exchange.name = "binance"
  · rw [if_pos hb] at hu
    injection hu with hu
    subst hu
    simp [unifiedBase, hb]
  · rw [if_neg hb] at hu
    by_cases ho : goToLower p.exchange.name = "okx"
    · rw [if_pos ho] at hu
      injection hu with hu
      subst hu
      simp [unifiedBase, hb, ho]
    · rw [if_neg ho] at hu
      injection hu with hu
      subst hu
      simp [unifiedBase, hb, ho]

lemma ParseDCAPayload_ok_inv {p q : DCAPayload}
    (h : ParseDCAPayload p = .ok q) :
    goToLower p.version = "v2" ∧ p.exchange.name ≠ "" ∧
    p.strategy.symbol ≠ "" ∧ p.strategy.quoteAmount ≠ "" ∧
    (NewFromString p.strategy.quoteAmount).isSome ∧
    (p.strategy.balanceThreshold = "" ∨
     (NewFromString p.strategy.balanceThreshold).isSome) ∧
    q.version = p.version ∧ q.exchange = p.exchange ∧
    q.notifications = p.notifications ∧ q.flags = p.flags ∧
    q.strategy.symbol = p.strategy.symbol ∧
    q.strategy.quoteAmount = p.strategy.quoteAmount ∧
    q.strategy.balanceThreshold = p.strategy.balanceThreshold := by
  unfold ParseDCAPayload at h
  split_ifs at h with h1 h2 h3 h4 h5 h6 h7 <;>
    try exact Except.noConfusion h
  all_goals
    push_neg at h1
    injection h with h
    subst h
    refine ⟨h1, h2, h3, h4, ?_, ?_, rfl, rfl, rfl, rfl, rfl, rfl, rfl⟩
  · cases hq : NewFromString p.strategy.quoteAmount
    · rw [hq] at h5; exact absurd rfl h5
    · rfl
  · by_cases hb : p.strategy.balanceThreshold = ""
    · exact Or.inl hb
    · right
      cases hbt : NewFromString p.strategy.balanceThreshold
      · exact absurd ⟨hb, by rw [hbt]; rfl⟩ h6
      · rfl
  · cases hq : NewFromString p.strategy.quoteAmount
    · rw [hq] at h5; exact absurd rfl h5
    · rfl
  · by_cases hb : p.strategy.balanceThreshold = ""
    · exact Or.inl hb
    · right
      cases hbt : NewFromString p.strategy.balanceThreshold
      · exact absurd ⟨hb, by rw [hbt]; rfl⟩ h6
      · rfl

lemma ParseDCAPayload_ok (p : DCAPayload)
    (h1 : goToLower p.version = "v2") (h2 : p.exchange.name ≠ "")
    (h3 : p.strategy.symbol ≠ "") (h4 : p.strategy.quoteAmount ≠ "")
    (h5 : (NewFromString p.strategy.quoteAmount).isSome)
    (h6 : p.strategy.balanceThreshold = "" ∨
          (NewFromString p.strategy.balanceThreshold).isSome) :
    ParseDCAPayload p = .ok { p with strategy := { p.strategy with
        orderType := if p.strategy.orderType = "" then "market"
                     else p.strategy.orderType } } := by
  have hv : ¬ (goToLower p.version ≠ "v2") := by simp [h1]
  have hq : ¬ ((NewFromString p.strategy.quoteAmount).isNone = true) := by
    rcases Option.isSome_iff_exists.mp h5 with ⟨d, hd⟩
    simp [hd]
  have hb : ¬ (p.strategy.balanceThreshold ≠ "" ∧
      (NewFromString p.strategy.balanceThreshold).isNone = true) := by
    rcases h6 with h6 | h6
    · simp [h6]
    · rcases Option.isSome_iff_exists.mp h6 with ⟨d, hd⟩
      simp [hd]
  unfold ParseDCAPayload
  rw [if_neg hv, if_neg h2, if_neg h3, if_neg h4, if_neg hq, if_neg hb]

lemma ParseUnifiedV2_ok_inv {v2 : PayloadV2} {u : Unified}
    (h : ParseUnifiedV2 v2 = .ok u) :
    ∃ sym qa bt,
      goToLower v2.version = "v2" ∧
      goToLower (goTrimSpace v2.exchange) ≠ "" ∧
      legacySymbol v2.dca = .ok sym ∧
      NewFromString v2.dca.quoteAmount = some qa ∧
      qa.IsPositive = true ∧
      legacyBalanceThreshold v2.dca = .ok bt ∧
      u = legacyAssemble v2 (goToLower (goTrimSpace v2.exchange))
            sym qa bt := by
  unfold ParseUnifiedV2 at h
  split_ifs at h with h1 h2
  push_neg at h1
  split at h
  · exact Except.noConfusion h
  next sym hsym =>
    split at h
    · exact Except.noConfusion h
    next qa hqa =>
      split_ifs at h with h3
      split at h
      · exact Except.noConfusion h
      next bt hbt =>
        exact ⟨sym, qa, bt, h1, h2, hsym, hqa, by simpa using h3, hbt,
               ((Except.ok.injEq _ _).mp h).symm⟩

lemma populate_binance_ssm {p : DCAPayload}
    (hname : goToLower p.exchange.name = "binance")
    (htype : p.exchange.credentials.type = "ssm") (u0 : Unified) :
    populateUnifiedCredentials p u0 = .ok { u0 with binance := some ⟨(bagGetString p.exchange.credentials.config "apiKeyPath").getD "", (bagGetString p.exchange.credentials.config "apiSecretPath").getD ""⟩ } := by
  unfold populateUnifiedCredentials
  rw [if_pos hname]
  simp [htype]

lemma populate_okx_inline {p : DCAPayload}
    (hname : goToLower p.exchange.name = "okx")
    (htype : p.exchange.credentials.type = "inline") (u0 : Unified) :
    populateUnifiedCredentials p u0 = .ok { u0 with okx := some ⟨"", "", ""⟩, okxInline := some ⟨(bagGetString p.exchange.credentials.config "apiKey").getD "", (bagGetString p.exchange.credentials.config "apiSecret").getD "", (bagGetString p.exchange.credentials.config "passphrase").getD ""⟩ } := by
  unfold populateUnifiedCredentials
  rw [if_neg (by simp [hname]), if_pos hname]
  simp [htype]

/-! ### Concrete inputs used by witnesses and counterexamples -/

/-- A syntactically valid nested payload for an unrecognized exchange:
version v2, exchange kraken with an ssm credential source and an empty
bag, symbol BTC-USDT, quote amount 10. -/
def c1Payload : DCAPayload :=
  ⟨"v2", ⟨"kraken", ⟨"ssm", []⟩, ""⟩, ⟨"BTC-USDT", "10", "", "market"⟩,
   ⟨none⟩, ⟨false⟩⟩

/-- The plan the unifier produces for `c1Payload`. -/
def c1Plan : Unified :=
  ⟨"kraken", "BTC-USDT", ⟨10, 0⟩, ⟨0, 1⟩, false, none, none, none, none⟩

/-- A legacy payload with quote amount zero. -/
def c2Legacy : PayloadV2 :=
  ⟨"v2", "binance", ⟨"BTC-USDT", "", "", "0", ""⟩, ⟨none, none⟩, ⟨none⟩, false⟩

/-- A nested payload with a negative quote amount. -/
def c2Nested : DCAPayload :=
  ⟨"v2", ⟨"binance", ⟨"ssm", []⟩, ""⟩, ⟨"BTC-USDT", "-5", "", "market"⟩,
   ⟨none⟩, ⟨false⟩⟩

/-- A nested payload whose quote amount and balance threshold are
negative decimal strings. -/
def c3Payload : DCAPayload :=
  ⟨"v2", ⟨"binance", ⟨"ssm", []⟩, ""⟩, ⟨"BTC-USDT", "-5", "-1", "market"⟩,
   ⟨none⟩, ⟨false⟩⟩

/-- A nested payload whose credential bag holds a wrong-typed value
under the expected key. -/
def c4Payload : DCAPayload :=
  ⟨"v2", ⟨"binance", ⟨"ssm", [("apiKeyPath", BagVal.notStr)]⟩, ""⟩,
   ⟨"BTC-USDT", "10", "", "market"⟩, ⟨none⟩, ⟨false⟩⟩

/-- The round-trip payload of claim C5: exchange binance, credential
kind ssm, bag with apiKeyPath and apiSecretPath entries. -/
def c5Payload : DCAPayload :=
  ⟨"v2",
   ⟨"binance",
    ⟨"ssm", [("apiKeyPath", BagVal.str "/a"),
             ("apiSecretPath", BagVal.str "/b")]⟩, ""⟩,
   ⟨"BTC-USDT", "10", "", "market"⟩, ⟨none⟩, ⟨false⟩⟩

/-- The plan the round trip of claim C5 produces. -/
def c5Plan : Unified :=
  ⟨"binance", "BTC-USDT", ⟨10, 0⟩, ⟨0, 1⟩, false,
   none, none, some ⟨"/a", "/b"⟩, none⟩

/-! ### Claim C1 -/

/-- C1 counterexample: on the successful unifier run for the
unrecognized exchange name kraken, no exchange-specific credential
record at all is populated, refuting the claim that exactly one always
is. -/
theorem C1_counterexample :
    ToUnified c1Payload = Except.ok c1Plan ∧
    c1Plan.binance = none ∧ c1Plan.okx = none :=
  ⟨rfl, rfl, rfl⟩

/-- C1 (amended): the unifier populates the binance record exactly when
the lower-cased exchange name is binance and the okx record exactly
when it is okx, so at most one record is populated and it matches the
exchange identifier, with the unused slot absent; for an unrecognized
exchange no record is populated. The legacy adapter instead populates
each record exactly when the corresponding credential block is present
in the payload, independently of the exchange identifier. -/
theorem C1_theorem :
    (∀ (p : DCAPayload) (u : Unified), ToUnified p = .ok u →
       (u.binance.isSome ↔ goToLower p.exchange.name = "binance") ∧
       (u.okx.isSome ↔ goToLower p.exchange.name = "okx") ∧
       ¬(u.binance.isSome ∧ u.okx.isSome)) ∧
    (∀ (v2 : PayloadV2) (u : Unified), ParseUnifiedV2 v2 = .ok u →
       (u.okx.isSome ↔ v2.credentials.okx.isSome) ∧
       (u.binance.isSome ↔ v2.credentials.binance.isSome)) := by
  constructor
  · intro p u h
    obtain ⟨qa, bt, u1, hqa, hbt, hpop, hu⟩ := ToUnified_ok_inv h
    obtain ⟨hex, hsym, hbin, hokx⟩ := populate_base_spec p qa bt u1 hpop
    subst hu
    rw [applyTelegram_binance, applyTelegram_okx]
    refine ⟨hbin, hokx, ?_⟩
    rintro ⟨hb, ho⟩
    rw [hbin] at hb
    rw [hokx] at ho
    rw [hb] at ho
    exact absurd ho (by decide)
  · intro v2 u h
    obtain ⟨sym, qa, bt, -, -, -, -, -, -, hu⟩ := ParseUnifiedV2_ok_inv h
    subst hu
    cases ho : v2.credentials.okx <;> cases hb : v2.credentials.binance <;>
      simp [legacyAssemble, ho, hb]

/-- C1 witness: the amended theorem applied to the kraken payload. -/
theorem C1_witness :
    (c1Plan.binance.isSome ↔ goToLower c1Payload.exchange.name = "binance") ∧
    (c1Plan.okx.isSome ↔ goToLower c1Payload.exchange.name = "okx") ∧
    ¬(c1Plan.binance.isSome ∧ c1Plan.okx.isSome) :=
  C1_theorem.1 c1Payload c1Plan rfl

/-! ### Claim C2 -/

/-- C2: the legacy adapter never succeeds when the quote amount does
not parse as a strictly positive decimal, and once version, exchange
and symbol resolution pass it fails with the error that carries the
literal offending string; the nested parser accepts any syntactically
valid decimal quote amount, with no positivity requirement. -/
theorem C2_theorem :
    (∀ v2 : PayloadV2, quotePositive v2.dca.quoteAmount = false →
       (ParseUnifiedV2 v2).isOk = false) ∧
    (∀ v2 : PayloadV2,
       goToLower v2.version = "v2" →
       goToLower (goTrimSpace v2.exchange) ≠ "" →
       (∃ sym, legacySymbol v2.dca = .ok sym) →
       quotePositive v2.dca.quoteAmount = false →
       ParseUnifiedV2 v2 =
         .error (LegacyError.quoteAmountInvalid v2.dca.quoteAmount)) ∧
    (∀ p : DCAPayload,
       goToLower p.version = "v2" → p.exchange.name ≠ "" →
       p.strategy.symbol ≠ "" → p.strategy.quoteAmount ≠ "" →
       (NewFromString p.strategy.quoteAmount).isSome →
       (p.strategy.balanceThreshold = "" ∨
        (NewFromString p.strategy.balanceThreshold).isSome) →
       (ParseDCAPayload p).isOk) := by
  refine ⟨?_, ?_, ?_⟩
  · intro v2 hq
    cases hres : ParseUnifiedV2 v2 with
    | error e => rfl
    | ok u =>
      obtain ⟨sym, qa, bt, -, -, -, hqa, hpos, -, -⟩ := ParseUnifiedV2_ok_inv hres
      simp only [quotePositive, hqa] at hq
      rw [hpos] at hq
      exact Bool.noConfusion hq
  · intro v2 hv hex hsym hq
    obtain ⟨sym, hsym⟩ := hsym
    unfold ParseUnifiedV2
    rw [if_neg (by simp [hv]), if_neg hex]
    cases hqa : NewFromString v2.dca.quoteAmount with
    | none => simp only [hsym, hqa]
    | some d =>
      simp only [quotePositive, hqa] at hq
      simp only [hsym, hqa, hq]
      simp
  · intro p h1 h2 h3 h4 h5 h6
    rw [ParseDCAPayload_ok p h1 h2 h3 h4 h5 h6]
    rfl

/-- C2 witness: the theorem applied to a legacy payload with quote
amount zero and to a nested payload with quote amount minus five. -/
theorem C2_witness :
    ParseUnifiedV2 c2Legacy =
      Except.error (LegacyError.quoteAmountInvalid "0") ∧
    (ParseDCAPayload c2Nested).isOk := by
  constructor
  · exact C2_theorem.2.1 c2Legacy rfl (by decide)
      ⟨"BTC-USDT", rfl⟩ rfl
  · exact C2_theorem.2.2 c2Nested rfl (by decide) (by decide)
      (by decide) rfl (Or.inl rfl)

/-! ### Claim C3 -/

/-- C3 counterexample: the nested parser accepts the payload whose
quote amount is the negative decimal string minus five and whose
balance threshold is minus one, refuting the claim that negative
decimal strings are rejected. -/
theorem C3_counterexample :
    ParseDCAPayload c3Payload = Except.ok c3Payload ∧
    c3Payload.strategy.quoteAmount = "-5" ∧
    NewFromString "-5" = some ⟨-5, 0⟩ :=
  ⟨rfl, rfl, rfl⟩

/-- C3 (amended): every payload accepted by the nested parser has a
quote amount that parses as a valid decimal and a balance threshold
that is empty or parses as a valid decimal; the sign is not
restricted, so negative decimal strings are accepted. -/
theorem C3_theorem :
    ∀ (p q : DCAPayload), ParseDCAPayload p = .ok q →
      (NewFromString p.strategy.quoteAmount).isSome ∧
      (p.strategy.balanceThreshold = "" ∨
       (NewFromString p.strategy.balanceThreshold).isSome) := by
  intro p q h
  obtain ⟨-, -, -, -, h5, h6, -⟩ := ParseDCAPayload_ok_inv h
  exact ⟨h5, h6⟩

/-- C3 witness: the amended theorem applied to the accepted payload
with negative amounts. -/
theorem C3_witness :
    (NewFromString c3Payload.strategy.quoteAmount).isSome ∧
    (c3Payload.strategy.balanceThreshold = "" ∨
     (NewFromString c3Payload.strategy.balanceThreshold).isSome) :=
  C3_theorem c3Payload c3Payload rfl

/-! ### Claim C4 -/

/-- C4: credential population never fails, and the unifier succeeds
exactly when the quote amount parses and the balance threshold is
empty or parses; the contents of the credential and telegram bags
cannot fail the call. -/
theorem C4_theorem :
    ∀ p : DCAPayload,
      (∀ u0 : Unified, ∃ u, populateUnifiedCredentials p u0 = Except.ok u) ∧
      ((∃ u, ToUnified p = Except.ok u) ↔
        ((NewFromString p.strategy.quoteAmount).isSome ∧
         (p.strategy.balanceThreshold = "" ∨
          (NewFromString p.strategy.balanceThreshold).isSome))) := by
  intro p
  refine ⟨populate_ok p, ?_, ?_⟩
  · rintro ⟨u, hu⟩
    obtain ⟨qa, bt, u1, hqa, hbt, -, -⟩ := ToUnified_ok_inv hu
    exact ⟨by simp [hqa], (parseBalanceThreshold_isOk_iff p).mp ⟨bt, hbt⟩⟩
  · rintro ⟨h5, h6⟩
    obtain ⟨qa, hqa⟩ := Option.isSome_iff_exists.mp h5
    obtain ⟨bt, hbt⟩ := (parseBalanceThreshold_isOk_iff p).mpr h6
    obtain ⟨u1, hpop⟩ := populate_ok p (unifiedBase p qa bt)
    exact ⟨_, ToUnified_eq_ok hqa hbt hpop⟩

/-- C4 witness: the unifier succeeds on the payload whose bag holds a
wrong-typed value under the expected credential key. -/
theorem C4_witness : ∃ u, ToUnified c4Payload = Except.ok u :=
  ((C4_theorem c4Payload).2).mpr ⟨rfl, Or.inl rfl⟩

/-! ### Claim C5 -/

/-- C5: for any nested payload with exchange binance, credential kind
ssm, and a bag holding the key path slash-a and secret path slash-b,
composing the parser with the unifier yields a plan whose binance
record carries those two paths and whose okx record is absent. -/
theorem C5_theorem :
    ∀ (p q : DCAPayload) (u : Unified),
      p.exchange.name = "binance" →
      p.exchange.credentials.type = "ssm" →
      bagGetString p.exchange.credentials.config "apiKeyPath" = some "/a" →
      bagGetString p.exchange.credentials.config "apiSecretPath" = some "/b" →
      ParseDCAPayload p = .ok q →
      ToUnified q = .ok u →
      u.binance = some ⟨"/a", "/b"⟩ ∧
      u.okx = none := by
  intro p q u hname htype hk hs hparse hto
  obtain ⟨-, -, -, -, -, -, -, hqex, -, -, -, -, -⟩ :=
    ParseDCAPayload_ok_inv hparse
  obtain ⟨qa, bt, u1, hqa, hbt, hpop, hu⟩ := ToUnified_ok_inv hto
  have hqname : goToLower q.exchange.name = "binance" := by
    rw [hqex, hname]; rfl
  have hqtype : q.exchange.credentials.type = "ssm" := by
    rw [hqex]; exact htype
  have hqcfg : q.exchange.credentials.config = p.exchange.credentials.config := by
    rw [hqex]
  rw [populate_binance_ssm hqname hqtype] at hpop
  injection hpop with hpop
  subst hpop
  subst hu
  rw [applyTelegram_binance, applyTelegram_okx]
  constructor
  · simp [hqcfg, hk, hs]
  · simp [unifiedBase]

/-- C5 witness: the round-trip theorem applied to the concrete payload
of the claim. -/
theorem C5_witness :
    c5Plan.binance = some ⟨"/a", "/b"⟩ ∧
    c5Plan.okx = none :=
  C5_theorem c5Payload c5Payload c5Plan rfl rfl rfl rfl rfl rfl

/-! ### Claim C6 -/

/-- A nested payload for mixed-case exchange OKX with inline
credentials in the bag. -/
def c6Payload : DCAPayload :=
  ⟨"v2",
   ⟨"OKX",
    ⟨"inline", [("apiKey", BagVal.str "k"), ("apiSecret", BagVal.str "s"),
                ("passphrase", BagVal.str "p")]⟩, ""⟩,
   ⟨"btc-usdt", "10", "", "market"⟩, ⟨none⟩, ⟨false⟩⟩

/-- The plan the unifier produces for `c6Payload`. -/
def c6Plan : Unified :=
  ⟨"okx", "BTC-USDT", ⟨10, 0⟩, ⟨0, 1⟩, false,
   some ⟨"", "", ""⟩, some ⟨"k", "s", "p"⟩, none, none⟩

/-- C6: for any instruction whose lower-cased exchange is okx with
credential kind inline and string bag values for the three inline
keys, a successful unifier run yields both an allocated empty
SSM-shaped okx record and a populated inline record carrying the three
bag values. -/
theorem C6_theorem :
    ∀ (p : DCAPayload) (u : Unified) (k s ph : String),
      goToLower p.exchange.name = "okx" →
      p.exchange.credentials.type = "inline" →
      bagGetString p.exchange.credentials.config "apiKey" = some k →
      bagGetString p.exchange.credentials.config "apiSecret" = some s →
      bagGetString p.exchange.credentials.config "passphrase" = some ph →
      ToUnified p = .ok u →
      u.okx = some ⟨"", "", ""⟩ ∧ u.okxInline = some ⟨k, s, ph⟩ := by
  intro p u k s ph hname htype hk hs hph hto
  obtain ⟨qa, bt, u1, hqa, hbt, hpop, hu⟩ := ToUnified_ok_inv hto
  rw [populate_okx_inline hname htype] at hpop
  injection hpop with hpop
  subst hpop
  subst hu
  rw [applyTelegram_okx, applyTelegram_okxInline]
  constructor
  · rfl
  · simp [hk, hs, hph]

/-- C6 witness: the theorem applied to the concrete okx inline
payload. -/
theorem C6_witness :
    c6Plan.okx = some ⟨"", "", ""⟩ ∧ c6Plan.okxInline = some ⟨"k", "s", "p"⟩ :=
  C6_theorem c6Payload c6Plan "k" "s" "p" rfl rfl rfl rfl rfl rfl

/-! ### Claim C7 -/

/-- A legacy payload whose dca symbol is a non-empty whitespace-only
string while the asset pair is present. -/
def c7v2 : PayloadV2 :=
  ⟨"v2", "okx", ⟨" ", "btc", "usdt", "10", ""⟩, ⟨none, none⟩, ⟨none⟩, false⟩

/-- The plan the legacy adapter produces for `c7v2`. -/
def c7plan : Unified :=
  ⟨"okx", "BTC-USDT", ⟨10, 0⟩, ⟨0, 1⟩, false, none, none, none, none⟩

/-- C7 counterexample: for the legacy payload whose dca symbol is the
non-empty string of one space, the claim says the symbol is preferred
and upper-cased verbatim, but the adapter trims it, finds it empty,
and composes the symbol from the asset pair instead. -/
theorem C7_counterexample :
    ParseUnifiedV2 c7v2 = Except.ok c7plan ∧
    c7v2.dca.symbol ≠ "" ∧
    c7plan.symbol ≠ goToUpper c7v2.dca.symbol :=
  ⟨rfl, by decide, by decide⟩

/-- C7 (amended): the legacy adapter resolves the symbol from the
trimmed dca symbol: when the trimmed symbol is non-empty the plan
symbol is its upper-casing; when the trimmed symbol is empty a
successful run composes the symbol from the non-empty target asset
and order currency, both upper-cased; and when the trimmed symbol is
empty and either asset field is empty the call fails. -/
theorem C7_theorem :
    (∀ (v2 : PayloadV2) (u : Unified), ParseUnifiedV2 v2 = .ok u →
       goToUpper (goTrimSpace v2.dca.symbol) ≠ "" →
       u.symbol = goToUpper (goTrimSpace v2.dca.symbol)) ∧
    (∀ (v2 : PayloadV2) (u : Unified), ParseUnifiedV2 v2 = .ok u →
       goToUpper (goTrimSpace v2.dca.symbol) = "" →
       u.symbol = goToUpper v2.dca.targetAsset ++ "-" ++
         goToUpper v2.dca.orderCurrency ∧
       v2.dca.targetAsset ≠ "" ∧ v2.dca.orderCurrency ≠ "") ∧
    (∀ v2 : PayloadV2, goToLower v2.version = "v2" →
       goToLower (goTrimSpace v2.exchange) ≠ "" →
       goToUpper (goTrimSpace v2.dca.symbol) = "" →
       (v2.dca.targetAsset = "" ∨ v2.dca.orderCurrency = "") →
       ParseUnifiedV2 v2 = .error LegacyError.symbolRequired) := by
  refine ⟨?_, ?_, ?_⟩
  · intro v2 u h hnz
    obtain ⟨sym, qa, bt, -, -, hsym, -, -, -, hu⟩ := ParseUnifiedV2_ok_inv h
    subst hu
    unfold legacySymbol at hsym
    rw [if_neg hnz] at hsym
    injection hsym with hsym
    subst hsym
    simp [legacyAssemble]
  · intro v2 u h hz
    obtain ⟨sym, qa, bt, -, -, hsym, -, -, -, hu⟩ := ParseUnifiedV2_ok_inv h
    subst hu
    unfold legacySymbol at hsym
    rw [if_pos hz] at hsym
    split_ifs at hsym with hor
    push_neg at hor
    injection hsym with hsym
    subst hsym
    exact ⟨by simp [legacyAssemble], hor.1, hor.2⟩
  · intro v2 hv hex hz hor
    unfold ParseUnifiedV2
    rw [if_neg (by simp [hv]), if_neg hex]
    unfold legacySymbol
    rw [if_pos hz, if_pos hor]

/-- C7 witness: the amended theorem applied to a payload with a
whitespace-padded symbol and to one resolving through the asset
pair. -/
theorem C7_witness :
    c7plan.symbol = goToUpper c7v2.dca.targetAsset ++ "-" ++
      goToUpper c7v2.dca.orderCurrency ∧
    c7v2.dca.targetAsset ≠ "" ∧ c7v2.dca.orderCurrency ≠ "" :=
  C7_theorem.2.1 c7v2 c7plan rfl rfl

/-! ### Claim C8 -/

/-- A nested payload whose exchange name and symbol are single-space
strings. -/
def c8Payload : DCAPayload :=
  ⟨"v2", ⟨" ", ⟨"ssm", []⟩, ""⟩, ⟨" ", "10", "", "market"⟩, ⟨none⟩, ⟨false⟩⟩

/-- A legacy payload whose exchange string is a single space. -/
def c8Legacy : PayloadV2 :=
  ⟨"v2", " ", ⟨"BTC-USDT", "", "", "10", ""⟩, ⟨none, none⟩, ⟨none⟩, false⟩

/-- C8: the nested path never trims: a payload whose exchange name and
symbol are non-empty whitespace-only strings passes the parser
(emptiness is the only membership test), and the unifier maps the
exchange and symbol through case mapping verbatim; by contrast the
legacy adapter trims the exchange string and rejects it when the
trimmed result is empty. -/
theorem C8_theorem :
    (∀ p : DCAPayload,
       goToLower p.version = "v2" →
       p.exchange.name.data.all goIsSpace → p.exchange.name ≠ "" →
       p.strategy.symbol.data.all goIsSpace → p.strategy.symbol ≠ "" →
       p.strategy.quoteAmount ≠ "" →
       (NewFromString p.strategy.quoteAmount).isSome →
       (p.strategy.balanceThreshold = "" ∨
        (NewFromString p.strategy.balanceThreshold).isSome) →
       (ParseDCAPayload p).isOk) ∧
    (∀ (p : DCAPayload) (u : Unified), ToUnified p = .ok u →
       u.exchange = goToLower p.exchange.name ∧
       u.symbol = goToUpper p.strategy.symbol) ∧
    (∀ v2 : PayloadV2, goToLower v2.version = "v2" →
       v2.exchange.data.all goIsSpace →
       ParseUnifiedV2 v2 = .error LegacyError.exchangeRequired) := by
  refine ⟨?_, ?_, ?_⟩
  · intro p h1 _ h2 _ h3 h4 h5 h6
    rw [ParseDCAPayload_ok p h1 h2 h3 h4 h5 h6]
    rfl
  · intro p u h
    obtain ⟨qa, bt, u1, hqa, hbt, hpop, hu⟩ := ToUnified_ok_inv h
    obtain ⟨hex, hsym, -, -⟩ := populate_base_spec p qa bt u1 hpop
    subst hu
    rw [applyTelegram_exchange, applyTelegram_symbol]
    exact ⟨hex, hsym⟩
  · intro v2 hv hall
    have htr : goTrimSpace v2.exchange = "" := goTrimSpace_eq_empty hall
    unfold ParseUnifiedV2
    rw [if_neg (by simp [hv]), if_pos (by rw [htr]; rfl)]

/-- C8 witness: the theorem applied to the whitespace-exchange
payloads. -/
theorem C8_witness :
    (ParseDCAPayload c8Payload).isOk ∧
    ParseUnifiedV2 c8Legacy = Except.error LegacyError.exchangeRequired := by
  constructor
  · exact C8_theorem.1 c8Payload rfl rfl (by decide) rfl (by decide)
      (by decide) rfl (Or.inl rfl)
  · exact C8_theorem.2.2 c8Legacy rfl rfl

/-! ### Claim C9 -/

/-- A legacy payload carrying every optional credential and
notification sub-record. -/
def c9v2 : PayloadV2 :=
  ⟨"v2", "binance", ⟨"BTC-USDT", "", "", "10", ""⟩,
   ⟨some ⟨"/k", "/s", "/p", some ⟨"ik", "is", "ip"⟩, some ⟨"KE", "SE", "PE"⟩⟩,
    some ⟨"/bk", "/bs", some ⟨"bik", "bis"⟩, some ⟨"BKE", "BSE"⟩⟩⟩,
   ⟨some ⟨"/bt", "chat", "STDOUT", some ⟨"tok"⟩, some ⟨"TE"⟩⟩⟩, false⟩

/-- The plan the legacy adapter produces for `c9v2`. -/
def c9plan : Unified :=
  ⟨"binance", "BTC-USDT", ⟨10, 0⟩, ⟨0, 1⟩, false,
   some ⟨"/k", "/s", "/p"⟩, some ⟨"ik", "is", "ip"⟩, some ⟨"/bk", "/bs"⟩,
   some ⟨"/bt", "chat", "stdout"⟩⟩

/-- C9: the legacy adapter reads none of the binance inline and env
sub-records, the okx env sub-record, or the telegram inline and env
sub-records: erasing all of them never changes the result; and the okx
inline sub-record is the one sub-record carried into the plan. -/
theorem C9_theorem :
    (∀ v2 : PayloadV2, ParseUnifiedV2 (scrubLegacy v2) = ParseUnifiedV2 v2) ∧
    (∀ (v2 : PayloadV2) (u : Unified), ParseUnifiedV2 v2 = .ok u →
       u.okxInline = v2.credentials.okx.bind (fun o =>
         o.inline.map (fun i => ⟨i.apiKey, i.apiSecret, i.passphrase⟩))) := by
  constructor
  · intro v2
    obtain ⟨ver, ex, dca, ⟨okxc, binc⟩, ⟨tgc⟩, dr⟩ := v2
    cases okxc <;> cases binc <;> cases tgc <;> rfl
  · intro v2 u h
    obtain ⟨sym, qa, bt, -, -, -, -, -, -, hu⟩ := ParseUnifiedV2_ok_inv h
    subst hu
    simp [legacyAssemble]

/-- C9 witness: the sub-record carry-over part applied to the fully
populated legacy payload. -/
theorem C9_witness :
    c9plan.okxInline = c9v2.credentials.okx.bind (fun o =>
      o.inline.map (fun i => ⟨i.apiKey, i.apiSecret, i.passphrase⟩)) :=
  C9_theorem.2 c9v2 c9plan rfl

/-! ### Claim C10 -/

/-- A telegram notification block with an unrecognized kind tag whose
bag still holds chatId and botTokenPath entries. -/
def c10Tg : TelegramConfig :=
  ⟨"weird", [("chatId", BagVal.str "42"), ("botTokenPath", BagVal.str "/tg")]⟩

/-- A nested payload carrying the `c10Tg` notification block. -/
def c10Payload : DCAPayload :=
  ⟨"v2", ⟨"binance", ⟨"ssm", []⟩, ""⟩, ⟨"BTC-USDT", "10", "", "market"⟩,
   ⟨some c10Tg⟩, ⟨false⟩⟩

/-- The plan the unifier produces for `c10Payload`. -/
def c10Plan : Unified :=
  ⟨"binance", "BTC-USDT", ⟨10, 0⟩, ⟨0, 1⟩, false,
   none, none, some ⟨"", ""⟩, some ⟨"", "42", ""⟩⟩

/-- C10: whenever the telegram block is present the unifier allocates
a telegram record and copies a string-typed chatId from the bag
whatever the kind tag is, copies botTokenPath only for the ssm tag,
and always leaves the sink empty; the legacy adapter is the one path
that sets the sink, copying it trimmed and lower-cased. -/
theorem C10_theorem :
    (∀ (p : DCAPayload) (tg : TelegramConfig) (u : Unified),
       p.notifications.telegram = some tg → ToUnified p = .ok u →
       u.telegram = some ⟨(if tg.type = "ssm" then
           (bagGetString tg.config "botTokenPath").getD "" else ""),
         (bagGetString tg.config "chatId").getD "", ""⟩) ∧
    (∀ (v2 : PayloadV2) (t : LegacyTelegram) (u : Unified),
       v2.notifications.telegram = some t → ParseUnifiedV2 v2 = .ok u →
       u.telegram = some ⟨t.botTokenPath, t.chatID,
         goToLower (goTrimSpace t.sink)⟩) := by
  constructor
  · intro p tg u htg h
    obtain ⟨qa, bt, u1, hqa, hbt, hpop, hu⟩ := ToUnified_ok_inv h
    subst hu
    simp [applyTelegram, htg]
  · intro v2 t u htg h
    obtain ⟨sym, qa, bt, -, -, -, -, -, -, hu⟩ := ParseUnifiedV2_ok_inv h
    subst hu
    simp [legacyAssemble, htg]

/-- C10 witness: the unifier part applied to the payload whose
telegram block carries the unrecognized tag. -/
theorem C10_witness : c10Plan.telegram = some ⟨"", "42", ""⟩ :=
  C10_theorem.1 c10Payload c10Tg c10Plan rfl rfl

end DCABot
